import Mathlib

/-!
Verification of the datetime-resolution and event-reconciliation core of a
natural-language calendar assistant (source: tools.py).

Modelling conventions (shallow embedding of the Python source):

* A timezone-aware `datetime` is modelled by `DT`: `wall` is the wall-clock
  position in microseconds on the local calendar timeline
  (`date * 86400000000 + time-of-day-in-microseconds`), and `off` is the UTC
  offset in minutes carried by the `tzinfo`.  The absolute instant used by
  Python's aware-datetime comparison operators is `DT.instant`.
  `datetime.combine(date, t, tzinfo)` is `combineDT`; `dt + timedelta` adds to
  `wall` and keeps `off`; `aware - aware` subtracts instants.
* `time.min` is time-of-day `0`; `time.max` is `86399999999` microseconds
  (23:59:59.999999).
* `dateutil.parser.parse` is an external library call; it is modelled by an
  arbitrary oracle `fb : String → Option PDT` (`none` = the parse raised one of
  the caught exceptions).  A `PDT` carries the parsed wall-clock value and an
  optional explicit UTC offset (`none` = naive result, which the source then
  qualifies with the local zone).
* `dt.isoformat()` / `dateutil.parser.isoparse` round-trip an aware datetime,
  so the embedding passes `DT` values where the source passes their ISO strings.
* Python truthiness on the optional inputs is modelled explicitly:
  `optStrTruthy` (an `Optional[str]` is truthy iff present and non-empty) and
  `optIntTruthy` (an `Optional[int]` is truthy iff present and non-zero).
* The wall clock is frozen for the duration of one call: `now` is the value of
  `datetime.now(local_tz)` and `now.off` the local zone's offset.
-/

/-- Microseconds in one day. -/
def usPerDay : Int := 86400000000

/-- Microseconds in one minute. -/
def usPerMinute : Int := 60000000

/-- Microsecond-of-day value of Python `time.max` (23:59:59.999999). -/
def timeMaxUs : Int := 86399999999

/-- A timezone-aware datetime: wall-clock microseconds on the calendar
timeline plus the UTC offset (minutes) of its `tzinfo`. -/
structure DT where
  wall : Int
  off : Int
deriving DecidableEq, Repr

/-- The calendar date of the datetime, as a day number (`dt.date()`). -/
def DT.dateOf (dt : DT) : Int := dt.wall / usPerDay

/-- The time-of-day component in microseconds (`dt.time()`); `0` is midnight
(`time.min`). -/
def DT.timeOfDay (dt : DT) : Int := dt.wall % usPerDay

/-- The absolute instant (microseconds) denoted by the aware datetime; this is
what Python's comparison of aware datetimes compares. -/
def DT.instant (dt : DT) : Int := dt.wall - dt.off * usPerMinute

/-- Model of `datetime.combine(date_part, time_part, tzinfo)`. -/
def combineDT (datePart : Int) (timePart : Int) (off : Int) : DT :=
  ⟨datePart * usPerDay + timePart, off⟩

/-- Model of `dt + timedelta(minutes=m)`: wall-clock arithmetic, offset kept. -/
def DT.addMinutes (dt : DT) (m : Int) : DT :=
  ⟨dt.wall + m * usPerMinute, dt.off⟩

/-- Model of `dt + delta` for a timedelta of `delta` microseconds. -/
def DT.addUs (dt : DT) (delta : Int) : DT :=
  ⟨dt.wall + delta, dt.off⟩

/-- Result of `dateutil.parser.parse`: a wall-clock value and, when the input
carried explicit zone information, its UTC offset in minutes. -/
structure PDT where
  wall : Int
  tzOff : Option Int
deriving DecidableEq, Repr

/-- Characters stripped by Python `str.strip()`. -/
def pyIsSpace (c : Char) : Bool :=
  c == ' ' || c == '\t' || c == '\n' || c == '\r' || c == '\x0b' || c == '\x0c'

/-- Drop leading whitespace from a character list. -/
def dropLeadingSpaces : List Char → List Char
  | [] => []
  | c :: cs => if pyIsSpace c then dropLeadingSpaces cs else c :: cs

/-- Python `str.strip()` on a character list: drop whitespace at both ends. -/
def pyStripChars (l : List Char) : List Char :=
  (dropLeadingSpaces ((dropLeadingSpaces l).reverse)).reverse

/-- Model of `datetime_str.lower().strip().replace("_", " ")` (the keys being
matched are ASCII, where `Char.toLower` agrees with `str.lower`). -/
def pyNormalize (s : String) : String :=
  String.mk ((pyStripChars ((s.data).map Char.toLower)).map
    (fun c => if c == '_' then ' ' else c))

/-- The `relative_date_handlers` table: maps a normalized relative phrase to
its datetime, relative to the current local datetime `now`.  `_combine_dt`
uses the local zone, i.e. `now.off`. -/
def relativeHandler (now : DT) (key : String) : Option DT :=
  let today := now.dateOf
  let o := now.off
  if key = "now" then some now
  else if key = "today" then some (combineDT today 0 o)
  else if key = "start of today" then some (combineDT today 0 o)
  else if key = "beginning of today" then some (combineDT today 0 o)
  else if key = "end of today" then some (combineDT today timeMaxUs o)
  else if key = "tonight" then some (combineDT today timeMaxUs o)
  else if key = "tomorrow" then some (combineDT (today + 1) 0 o)
  else if key = "start of tomorrow" then some (combineDT (today + 1) 0 o)
  else if key = "beginning of tomorrow" then some (combineDT (today + 1) 0 o)
  else if key = "end of tomorrow" then some (combineDT (today + 1) timeMaxUs o)
  else if key = "yesterday" then some (combineDT (today - 1) 0 o)
  else if key = "start of yesterday" then some (combineDT (today - 1) 0 o)
  else if key = "beginning of yesterday" then some (combineDT (today - 1) 0 o)
  else if key = "end of yesterday" then some (combineDT (today - 1) timeMaxUs o)
  else none

/-- Result of `parse_datetime_for_api`: an ISO string of the resolved
datetime, or `None` after logging the original offending string (the failure
constructor carries that string). -/
inductive Resolved where
  | ok (dt : DT)
  | err (orig : String)
deriving DecidableEq, Repr

/-- The midnight substitution: `if dt.time() == time.min and default_time:`
replace the clock-time with `default_time`, keeping date and tzinfo (a
`time` object is always truthy, so the second conjunct is `isSome`). -/
def applyDefaultTime (dt : DT) (default_time : Option Int) : DT :=
  match default_time with
  | some t => if dt.timeOfDay = 0 then combineDT dt.dateOf t dt.off else dt
  | none => dt

/-- Model of `parse_datetime_for_api(datetime_str, default_time, prefer_future)`.
The relative-keyword table is consulted on the normalized string; the fallback
parser `fb` receives the original string; a naive fallback result is qualified
with the local zone (`now.off`); both paths apply the midnight substitution;
a fallback failure yields the error carrying the original string
(`prefer_future` is accepted but unused, as in the source). -/
def parse_datetime_for_api (fb : String → Option PDT) (now : DT)
    (datetime_str : String) (default_time : Option Int)
    (prefer_future : Bool) : Resolved :=
  let _ := prefer_future
  let normalized := pyNormalize datetime_str
  match relativeHandler now normalized with
  | some dt => Resolved.ok (applyDefaultTime dt default_time)
  | none =>
    match fb datetime_str with
    | some p => Resolved.ok (applyDefaultTime ⟨p.wall, p.tzOff.getD now.off⟩ default_time)
    | none => Resolved.err datetime_str

/-- Python truthiness of an `Optional[str]`. -/
def optStrTruthy : Option String → Bool
  | none => false
  | some s => !(s.isEmpty)

/-- Python truthiness of an `Optional[int]`. -/
def optIntTruthy : Option Int → Bool
  | none => false
  | some n => n != 0

/-- The structured input of `create_event` (pydantic `CalendarEventInput`). -/
structure CalendarEventInput where
  summary : String
  start_time_str : String
  duration_minutes : Option Int
  end_time_str : Option String
  description : Option String
  location : Option String
deriving DecidableEq, Repr

/-- The outcome of the timing logic of `create_event` (lines 105-126): each
early-returned error message, or the validated start/end pair put in the
event body passed to `insert`. -/
inductive CreateOutcome where
  | badStart (orig : String)
  | badEnd (orig : String)
  | nonPositiveDuration
  | endBeforeStart (endDt startDt : DT)
  | created (startDt endDt : DT)
deriving DecidableEq, Repr

/-- The timing reconciliation of `create_event`: resolve the start (no default
clock-time); a truthy `end_time_str` is resolved, else a truthy
`duration_minutes` must be positive and is added, else 60 minutes are added;
finally `end_dt <= start_dt` is rejected. -/
def createReconcile (fb : String → Option PDT) (now : DT)
    (d : CalendarEventInput) : CreateOutcome :=
  match parse_datetime_for_api fb now d.start_time_str none true with
  | Resolved.err s => CreateOutcome.badStart s
  | Resolved.ok start_dt =>
    let endRes : Except CreateOutcome DT :=
      if optStrTruthy d.end_time_str then
        match parse_datetime_for_api fb now (d.end_time_str.getD ("")) none true with
        | Resolved.err s => Except.error (CreateOutcome.badEnd s)
        | Resolved.ok e => Except.ok e
      else if optIntTruthy d.duration_minutes then
        if (d.duration_minutes.getD 0) ≤ 0 then
          Except.error CreateOutcome.nonPositiveDuration
        else Except.ok (start_dt.addMinutes (d.duration_minutes.getD 0))
      else Except.ok (start_dt.addMinutes 60)
    match endRes with
    | Except.error o => o
    | Except.ok end_dt =>
      if end_dt.instant ≤ start_dt.instant then
        CreateOutcome.endBeforeStart end_dt start_dt
      else CreateOutcome.created start_dt end_dt

/-- The structured input of `change_event` (pydantic `UpdateEventInput`). -/
structure UpdateEventInput where
  event_id : String
  new_summary : Option String
  new_start_time_str : Option String
  new_end_time_str : Option String
  new_duration_minutes : Option Int
  new_description : Option String
  new_location : Option String
deriving DecidableEq, Repr

/-- The outcome of the timing section of `change_event` (lines 253-297):
no timing field supplied, an early-returned error message, the degenerate
start-only body (the dead `if new_end_iso:` guard of the second branch), or
the start/end pair written into `update_body`. -/
inductive PatchTiming where
  | noTiming
  | badStart (orig : String)
  | badEnd (orig : String)
  | nonPositiveDuration
  | endNotAfterStart (endDt startDt : DT)
  | startOnly (startDt : DT)
  | range (startDt endDt : DT)
deriving DecidableEq, Repr

/-- The timing reconciliation of `change_event`, given the current event's
start/end fetched from the provider.  First branch (truthy
`new_start_time_str`): resolve the new start; a truthy end string is resolved,
else a truthy duration must be positive and is added, else the current
duration (`current_end_dt - current_start_dt`) is preserved; then
`new_end <= new_start` is rejected.  Second branch (truthy end string or
duration, start not moving): anchor on the current start, compute the end the
same way (end string first), and reject `new_end <= current_start`. -/
def reconcilePatchTiming (fb : String → Option PDT) (now : DT)
    (d : UpdateEventInput) (current_start_dt current_end_dt : DT) : PatchTiming :=
  if optStrTruthy d.new_start_time_str then
    match parse_datetime_for_api fb now (d.new_start_time_str.getD ("")) none true with
    | Resolved.err s => PatchTiming.badStart s
    | Resolved.ok new_start_dt =>
      let endRes : Except PatchTiming DT :=
        if optStrTruthy d.new_end_time_str then
          match parse_datetime_for_api fb now (d.new_end_time_str.getD ("")) none true with
          | Resolved.err s => Except.error (PatchTiming.badEnd s)
          | Resolved.ok e => Except.ok e
        else if optIntTruthy d.new_duration_minutes then
          if (d.new_duration_minutes.getD 0) ≤ 0 then
            Except.error PatchTiming.nonPositiveDuration
          else Except.ok (new_start_dt.addMinutes (d.new_duration_minutes.getD 0))
        else
          Except.ok (new_start_dt.addUs (current_end_dt.instant - current_start_dt.instant))
      match endRes with
      | Except.error o => o
      | Except.ok new_end_dt =>
        if new_end_dt.instant ≤ new_start_dt.instant then
          PatchTiming.endNotAfterStart new_end_dt new_start_dt
        else PatchTiming.range new_start_dt new_end_dt
  else if optStrTruthy d.new_end_time_str || optIntTruthy d.new_duration_minutes then
    let anchor := current_start_dt
    let endRes : Except PatchTiming (Option DT) :=
      if optStrTruthy d.new_end_time_str then
        match parse_datetime_for_api fb now (d.new_end_time_str.getD ("")) none true with
        | Resolved.err s => Except.error (PatchTiming.badEnd s)
        | Resolved.ok e => Except.ok (some e)
      else if optIntTruthy d.new_duration_minutes then
        if (d.new_duration_minutes.getD 0) ≤ 0 then
          Except.error PatchTiming.nonPositiveDuration
        else Except.ok (some (anchor.addMinutes (d.new_duration_minutes.getD 0)))
      else Except.ok none
    match endRes with
    | Except.error o => o
    | Except.ok none => PatchTiming.startOnly anchor
    | Except.ok (some new_end_dt) =>
      if new_end_dt.instant ≤ anchor.instant then
        PatchTiming.endNotAfterStart new_end_dt anchor
      else PatchTiming.range anchor new_end_dt
  else PatchTiming.noTiming

/-- The structured input of `list_event` (pydantic `ListEventsInput`). -/
structure ListEventsInput where
  time_min_str : Option String
  time_max_str : Option String
  search_query : Option String
  max_results : Int
deriving DecidableEq, Repr

/-- The arguments of the `events().list(...)` call built by `list_event`. -/
structure ListQuery where
  timeMin : DT
  timeMax : Option DT
  searchQuery : Option String
  maxResults : Int
deriving DecidableEq, Repr

/-- Forget the original string of a failed resolution (`parse_datetime_for_api`
returns `None` on failure). -/
def resolvedToOpt : Resolved → Option DT
  | Resolved.ok dt => some dt
  | Resolved.err _ => none

/-- The outcome of the time-window logic of `list_event` (lines 165-188): the
early-returned error when `time_min_str` fails to resolve, or the query issued
to the provider. -/
inductive ListOutcome where
  | badTimeMin
  | query (qy : ListQuery)
deriving DecidableEq, Repr

/-- The time-window reconciliation of `list_event`: a truthy `time_min_str` is
resolved with default clock-time `time.min`, else the lower bound is `now`;
a truthy `time_max_str` is resolved with default clock-time `time.max`, and a
failed resolution leaves the upper bound `None` (unbounded); only a missing
lower bound aborts; `max_results` is clamped to 250. -/
def listReconcile (fb : String → Option PDT) (now : DT)
    (d : ListEventsInput) : ListOutcome :=
  let time_min_opt : Option DT :=
    if optStrTruthy d.time_min_str then
      resolvedToOpt (parse_datetime_for_api fb now (d.time_min_str.getD ("")) (some 0) true)
    else some now
  let time_max_opt : Option DT :=
    if optStrTruthy d.time_max_str then
      resolvedToOpt (parse_datetime_for_api fb now (d.time_max_str.getD ("")) (some timeMaxUs) true)
    else none
  match time_min_opt with
  | none => ListOutcome.badTimeMin
  | some m => ListOutcome.query ⟨m, time_max_opt, d.search_query, min d.max_results 250⟩

/-- A Python exception crossing a provider call: an `HttpError` with status,
reason and content, or any other `Exception` with its message. -/
inductive PyExn where
  | httpError (status : Nat) (reason content : String)
  | other (msg : String)
deriving DecidableEq, Repr

/-- The event body sent to `insert` / `patch`: each field present iff the
corresponding key was put into the dictionary. -/
structure EventBody where
  summary : Option String
  description : Option String
  location : Option String
  startDt : Option DT
  endDt : Option DT
deriving DecidableEq, Repr

/-- An event as returned by the provider and needed by the handlers: the
summary, the parsed current start/end, and the `htmlLink`. -/
structure EventSnapshot where
  summary : String
  startDt : DT
  endDt : DT
  link : String

/-- One item of a list result: summary, raw start field and id. -/
structure ListItem where
  summary : String
  startRaw : String
  id : String

/-- A page of list results with its `nextPageToken` presence flag. -/
structure ListPage where
  items : List ListItem
  nextPage : Bool

/-- The injected Google Calendar collaborator.  Every method may raise (the
`Except.error` case models the exception propagating out of the `execute()`
call); `getEvent` may also return a falsy event (`none`), and its result folds
in the `isoparse` of the event's start/end fields, which also happens inside
the handler's `try` block. -/
structure Provider where
  insertEvent : EventBody → Except PyExn String
  listEvents : ListQuery → Except PyExn ListPage
  getEvent : String → Except PyExn (Option EventSnapshot)
  patchEvent : String → EventBody → Except PyExn EventSnapshot
  deleteEvent : String → Bool → Except PyExn Unit

/-- Model of a `try: ... except HttpError as error: return f... except
Exception as e: return f...` block: every exception is converted to a
returned message string. -/
def pyCatch (httpPrefix otherPrefix : String) (x : Except PyExn String) :
    Except PyExn String :=
  match x with
  | Except.ok s => Except.ok s
  | Except.error (PyExn.httpError _ reason content) =>
    Except.ok (httpPrefix ++ reason ++ content)
  | Except.error (PyExn.other m) => Except.ok (otherPrefix ++ m)

/-- The `create_event` handler.  The service connection and the timing
reconciliation happen outside the `try` block (and cannot raise: the resolver
catches its parser's exceptions internally); only the `insert` call is
guarded by `try/except`. -/
def create_event (p : Option Provider) (fb : String → Option PDT) (now : DT)
    (details : CalendarEventInput) : Except PyExn String :=
  match p with
  | none => Except.ok ("Failed to connect to Google Calendar service. Please check authentication and client_secret.json.")
  | some service =>
    match createReconcile fb now details with
    | CreateOutcome.badStart s =>
      Except.ok ("Could not understand the start time: " ++ s)
    | CreateOutcome.badEnd s =>
      Except.ok ("Could not understand the end time: " ++ s)
    | CreateOutcome.nonPositiveDuration =>
      Except.ok ("Event duration must be positive.")
    | CreateOutcome.endBeforeStart _ _ =>
      Except.ok ("The events end time must be after its start time.")
    | CreateOutcome.created start_dt end_dt =>
      pyCatch ("Google Calendar API error while creating event: ")
        ("An unexpected error occurred while creating event: ")
        (match service.insertEvent
            ⟨some details.summary, details.description, details.location,
              some start_dt, some end_dt⟩ with
         | Except.ok link =>
           Except.ok ("Event " ++ details.summary ++ " created successfully! View it here: " ++ link)
         | Except.error e => Except.error e)

/-- Formatting of the list results (lines 190-207); the per-item date
formatting has its own bare `except`, so it is modelled as pure. -/
def formatListPage (page : ListPage) : String :=
  if page.items.isEmpty then "No events found matching your criteria."
  else
    (page.items.foldl
      (fun acc it =>
        acc ++ "- " ++ it.summary ++ " on " ++ it.startRaw ++ " (ID: " ++ it.id ++ ")")
      ("Found events:")) ++
    (if page.nextPage then "Note: There may be more events than shown." else "")

/-- The `list_event` handler: connection check and window reconciliation
outside the `try`; the `list` call and result formatting inside it. -/
def list_event (p : Option Provider) (fb : String → Option PDT) (now : DT)
    (details : ListEventsInput) : Except PyExn String :=
  match p with
  | none => Except.ok ("Failed to connect to Google Calendar service.")
  | some service =>
    match listReconcile fb now details with
    | ListOutcome.badTimeMin =>
      Except.ok ("Could not parse time min str. Please provide a valid start date or time.")
    | ListOutcome.query qy =>
      pyCatch ("Google Calendar API error while listing events: ")
        ("An unexpected error occurred while listing events: ")
        (match service.listEvents qy with
         | Except.ok page => Except.ok (formatListPage page)
         | Except.error e => Except.error e)

/-- The body of `change_event`'s `try` block: fetch the event, apply the
three-state text fields (`is not None`), run the timing reconciliation,
reject an empty `update_body`, then `patch`. -/
def change_event_body (service : Provider) (fb : String → Option PDT) (now : DT)
    (details : UpdateEventInput) : Except PyExn String :=
  match service.getEvent details.event_id with
  | Except.error e => Except.error e
  | Except.ok none =>
    Except.ok ("Event with ID " ++ details.event_id ++ " not found.")
  | Except.ok (some ev) =>
    let finish : EventBody → Except PyExn String := fun body =>
      if body = ⟨none, none, none, none, none⟩ then
        Except.ok ("No changes specified for the event. Please provide fields to update.")
      else
        match service.patchEvent details.event_id body with
        | Except.ok upd =>
          Except.ok ("Event " ++ upd.summary ++ " updated successfully. View it here: " ++ upd.link)
        | Except.error e => Except.error e
    let body0 : EventBody :=
      ⟨details.new_summary, details.new_description, details.new_location, none, none⟩
    match reconcilePatchTiming fb now details ev.startDt ev.endDt with
    | PatchTiming.badStart s =>
      Except.ok ("Could not parse new start time str: " ++ s)
    | PatchTiming.badEnd s =>
      Except.ok ("Could not parse new end time str: " ++ s)
    | PatchTiming.nonPositiveDuration =>
      Except.ok ("New duration must be positive.")
    | PatchTiming.endNotAfterStart _ _ =>
      Except.ok ("The events new end time must be after its start time.")
    | PatchTiming.startOnly a =>
      finish ⟨body0.summary, body0.description, body0.location, some a, none⟩
    | PatchTiming.range a b =>
      finish ⟨body0.summary, body0.description, body0.location, some a, some b⟩
    | PatchTiming.noTiming => finish body0

/-- The `change_event` handler: the connection check is outside the `try`;
everything else (fetch, reconcile, patch) is inside it. -/
def change_event (p : Option Provider) (fb : String → Option PDT) (now : DT)
    (details : UpdateEventInput) : Except PyExn String :=
  match p with
  | none => Except.ok ("Failed to connect to Google Calendar service.")
  | some service =>
    pyCatch ("Google Calendar API error while updating event: ")
      ("An unexpected error occurred while updating event: ")
      (change_event_body service fb now details)

/-- The structured input of `cancel_event` (pydantic `CancelEventInput`). -/
structure CancelEventInput where
  event_id : String
  send_notifications : Bool
deriving DecidableEq, Repr

/-- The `cancel_event` handler: the `delete` call is inside a `try` whose
`HttpError` clause special-cases status 404 as a not-found result. -/
def cancel_event (p : Option Provider) (details : CancelEventInput) :
    Except PyExn String :=
  match p with
  | none => Except.ok ("Failed to connect to Google Calendar service.")
  | some service =>
    match service.deleteEvent details.event_id details.send_notifications with
    | Except.ok _ =>
      Except.ok ("Event with ID " ++ details.event_id ++ " cancelled successfully.")
    | Except.error (PyExn.httpError status reason content) =>
      if status = 404 then
        Except.ok ("Event with ID " ++ details.event_id ++ " not found. Cannot cancel.")
      else
        Except.ok ("Google Calendar API error while canceling event: " ++ reason ++ content)
    | Except.error (PyExn.other m) =>
      Except.ok ("An unexpected error occurred while canceling event: " ++ m)

/-- Whether an `Except` computation finished with a value rather than an
uncaught exception. -/
def exceptIsOk {ε α : Type} : Except ε α → Bool
  | Except.ok _ => true
  | Except.error _ => false

/-- Microseconds in one hour (fixture shorthand). -/
def usPerHour : Int := 3600000000

/-- Fixture: a current local datetime (day 20000 at 09:00 local, UTC+02:00). -/
def nowW : DT := ⟨20000 * usPerDay + 9 * usPerHour, 120⟩

/-- Fixture: day number standing for the calendar date 2025-06-05. -/
def dayJun5 : Int := 20244

/-- Fixture: day number standing for the calendar date 2025-12-25. -/
def dayDec25 : Int := 20447

/-- Fixture fallback parser: behaves like `dateutil.parser.parse` on a few
concrete inputs — a bare date yields a naive midnight, a full ISO timestamp
in the local zone yields that wall-clock time with the local offset — and
fails on everything else. -/
def fbW : String → Option PDT := fun s =>
  if s = "2025-12-25" then some ⟨dayDec25 * usPerDay, none⟩
  else if s = "2025-06-05T14:00:00" then some ⟨dayJun5 * usPerDay + 14 * usPerHour, some 120⟩
  else if s = "2025-06-05T12:00:00" then some ⟨dayJun5 * usPerDay + 12 * usPerHour, some 120⟩
  else if s = "2025-06-05T10:00:00" then some ⟨dayJun5 * usPerDay + 10 * usPerHour, some 120⟩
  else none

/-- Helper: when the normalized string hits the relative-keyword table, the
resolver returns that handler's datetime with the default-time substitution
applied. -/
theorem parse_relative_eq (fb : String → Option PDT) (now : DT) (s : String)
    (dt : DT) (h : relativeHandler now (pyNormalize s) = some dt)
    (d : Option Int) (pf : Bool) :
    parse_datetime_for_api fb now s d pf = Resolved.ok (applyDefaultTime dt d) := by
  unfold parse_datetime_for_api
  simp only [h]

/-- Helper: when the keyword table misses and the fallback parser succeeds,
the resolver qualifies a naive result with the local zone and applies the
default-time substitution. -/
theorem parse_fallback_eq (fb : String → Option PDT) (now : DT) (s : String)
    (p : PDT) (hrel : relativeHandler now (pyNormalize s) = none)
    (hfb : fb s = some p) (d : Option Int) (pf : Bool) :
    parse_datetime_for_api fb now s d pf =
      Resolved.ok (applyDefaultTime ⟨p.wall, p.tzOff.getD now.off⟩ d) := by
  unfold parse_datetime_for_api
  simp only [hrel, hfb]

/-- Helper: when both the keyword table and the fallback parser fail, the
resolver returns the failure carrying the original string. -/
theorem parse_fail_eq (fb : String → Option PDT) (now : DT) (s : String)
    (hrel : relativeHandler now (pyNormalize s) = none)
    (hfb : fb s = none) (d : Option Int) (pf : Bool) :
    parse_datetime_for_api fb now s d pf = Resolved.err s := by
  unfold parse_datetime_for_api
  simp only [hrel, hfb]

/-- C7: for every input string that neither matches the relative-keyword
table nor is parseable by the fallback parser, the resolver returns the
failure value carrying the original offending string — never an instant. -/
theorem C7_unparseable_string_yields_error (fb : String → Option PDT)
    (now : DT) (s : String) (d : Option Int) (pf : Bool)
    (hrel : relativeHandler now (pyNormalize s) = none)
    (hfb : fb s = none) :
    parse_datetime_for_api fb now s d pf = Resolved.err s :=
  parse_fail_eq fb now s hrel hfb d pf

/-- Witness for C7 at the spec's example input. -/
theorem C7_witness :
    parse_datetime_for_api fbW nowW ("not a date") none true =
      Resolved.err ("not a date") :=
  C7_unparseable_string_yields_error fbW nowW ("not a date") none true
    (by decide) (by decide)

/-- C4: whenever resolution (keyword table or fallback) lands exactly on
local midnight and a default clock-time is supplied, the resolver replaces
only the clock-time component, keeping the resolved calendar date and the
resolved zone offset. -/
theorem C4_midnight_default_substitution (fb : String → Option PDT)
    (now : DT) (s : String) (t : Int) (pf : Bool) (dt : DT)
    (hok : parse_datetime_for_api fb now s none pf = Resolved.ok dt)
    (hmid : dt.timeOfDay = 0) :
    parse_datetime_for_api fb now s (some t) pf =
      Resolved.ok (combineDT dt.dateOf t dt.off) := by
  unfold parse_datetime_for_api at hok ⊢
  cases hrel : relativeHandler now (pyNormalize s) with
  | some d0 =>
    simp only [hrel, applyDefaultTime, Resolved.ok.injEq] at hok ⊢
    subst hok
    simp [hmid]
  | none =>
    cases hfb : fb s with
    | some p =>
      simp only [hrel, hfb, applyDefaultTime, Resolved.ok.injEq] at hok ⊢
      subst hok
      simp [hmid]
    | none =>
      simp only [hrel, hfb] at hok
      exact Resolved.noConfusion hok

/-- Witness for C4 at the spec's example: a bare date parsed by the fallback
to naive midnight, with an end-of-day default clock-time, yields that date at
23:59:59.999999 in the local zone. -/
theorem C4_witness :
    parse_datetime_for_api fbW nowW ("2025-12-25") (some timeMaxUs) true =
      Resolved.ok (combineDT dayDec25 timeMaxUs 120) ∧
    combineDT dayDec25 timeMaxUs 120 = ⟨dayDec25 * usPerDay + timeMaxUs, 120⟩ := by
  constructor
  · exact C4_midnight_default_substitution fbW nowW ("2025-12-25") timeMaxUs true
      ⟨dayDec25 * usPerDay, 120⟩ (by decide) (by decide)
  · decide

/-- C5: every recognized relative-phrase key — after normalization
(lowercase, trim, underscores to spaces) — resolves to its deterministic
instant relative to the current local datetime: `now` gives the current
instant, the start-of-day keys give local midnight of the corresponding day,
and the end-of-day keys give that day's last representable instant
(23:59:59.999999), all in the local zone. -/
theorem C5_relative_keyword_table (fb : String → Option PDT) (now : DT)
    (s : String) :
    (pyNormalize s = "now" →
      parse_datetime_for_api fb now s none true = Resolved.ok now) ∧
    (pyNormalize s = "today" →
      parse_datetime_for_api fb now s none true =
        Resolved.ok (combineDT now.dateOf 0 now.off)) ∧
    (pyNormalize s = "start of today" →
      parse_datetime_for_api fb now s none true =
        Resolved.ok (combineDT now.dateOf 0 now.off)) ∧
    (pyNormalize s = "beginning of today" →
      parse_datetime_for_api fb now s none true =
        Resolved.ok (combineDT now.dateOf 0 now.off)) ∧
    (pyNormalize s = "end of today" →
      parse_datetime_for_api fb now s none true =
        Resolved.ok (combineDT now.dateOf timeMaxUs now.off)) ∧
    (pyNormalize s = "tonight" →
      parse_datetime_for_api fb now s none true =
        Resolved.ok (combineDT now.dateOf timeMaxUs now.off)) ∧
    (pyNormalize s = "tomorrow" →
      parse_datetime_for_api fb now s none true =
        Resolved.ok (combineDT (now.dateOf + 1) 0 now.off)) ∧
    (pyNormalize s = "start of tomorrow" →
      parse_datetime_for_api fb now s none true =
        Resolved.ok (combineDT (now.dateOf + 1) 0 now.off)) ∧
    (pyNormalize s = "beginning of tomorrow" →
      parse_datetime_for_api fb now s none true =
        Resolved.ok (combineDT (now.dateOf + 1) 0 now.off)) ∧
    (pyNormalize s = "end of tomorrow" →
      parse_datetime_for_api fb now s none true =
        Resolved.ok (combineDT (now.dateOf + 1) timeMaxUs now.off)) ∧
    (pyNormalize s = "yesterday" →
      parse_datetime_for_api fb now s none true =
        Resolved.ok (combineDT (now.dateOf - 1) 0 now.off)) ∧
    (pyNormalize s = "start of yesterday" →
      parse_datetime_for_api fb now s none true =
        Resolved.ok (combineDT (now.dateOf - 1) 0 now.off)) ∧
    (pyNormalize s = "beginning of yesterday" →
      parse_datetime_for_api fb now s none true =
        Resolved.ok (combineDT (now.dateOf - 1) 0 now.off)) ∧
    (pyNormalize s = "end of yesterday" →
      parse_datetime_for_api fb now s none true =
        Resolved.ok (combineDT (now.dateOf - 1) timeMaxUs now.off)) := by
  refine ⟨?_, ?_, ?_, ?_, ?_, ?_, ?_, ?_, ?_, ?_, ?_, ?_, ?_, ?_⟩ <;>
    exact fun h => parse_relative_eq fb now s _ (by rw [h]; rfl) none true

/-- Witness for C5: two keys exercised concretely, one of them with
case, surrounding whitespace and underscores to be normalized away. -/
theorem C5_witness :
    parse_datetime_for_api fbW nowW ("  End_of_Tomorrow ") none true =
      Resolved.ok (combineDT (nowW.dateOf + 1) timeMaxUs nowW.off) ∧
    parse_datetime_for_api fbW nowW ("now") none true = Resolved.ok nowW := by
  constructor
  · exact (C5_relative_keyword_table fbW nowW
      ("  End_of_Tomorrow ")).2.2.2.2.2.2.2.2.2.1 (by decide)
  · exact (C5_relative_keyword_table fbW nowW ("now")).1 (by decide)

/-- C8: a creation with neither an end expression nor a duration yields the
range (start, start + 60 minutes) — the default-duration policy. -/
theorem C8_default_duration_sixty_minutes (fb : String → Option PDT)
    (now : DT) (d : CalendarEventInput) (s : DT)
    (hend : d.end_time_str = none) (hdur : d.duration_minutes = none)
    (hp : parse_datetime_for_api fb now d.start_time_str none true = Resolved.ok s) :
    createReconcile fb now d = CreateOutcome.created s (s.addMinutes 60) := by
  unfold createReconcile
  rw [hp]
  simp only [hend, hdur, optStrTruthy, optIntTruthy, Bool.false_eq_true, if_false]
  have hlt : ¬ ((s.addMinutes 60).instant ≤ s.instant) := by
    simp only [DT.addMinutes, DT.instant, usPerMinute]
    omega
  simp only [hlt, if_false]

/-- Witness for C8 at the spec's example input. -/
theorem C8_witness :
    createReconcile fbW nowW
      ⟨"Meeting", "2025-06-05T14:00:00", none, none, none, none⟩ =
      CreateOutcome.created ⟨dayJun5 * usPerDay + 14 * usPerHour, 120⟩
        (DT.addMinutes ⟨dayJun5 * usPerDay + 14 * usPerHour, 120⟩ 60) :=
  C8_default_duration_sixty_minutes fbW nowW
    ⟨"Meeting", "2025-06-05T14:00:00", none, none, none, none⟩
    ⟨dayJun5 * usPerDay + 14 * usPerHour, 120⟩ rfl rfl (by decide)

/-- C1: an update supplying a new start but neither a new end nor a new
duration reconciles to (new start, new start + (current end − current
start)): the original duration is preserved and only the start moves. -/
theorem C1_start_shift_preserves_duration (fb : String → Option PDT)
    (now : DT) (d : UpdateEventInput) (cs ce ns : DT)
    (hts : optStrTruthy d.new_start_time_str = true)
    (hp : parse_datetime_for_api fb now (d.new_start_time_str.getD ("")) none true =
      Resolved.ok ns)
    (hne : optStrTruthy d.new_end_time_str = false)
    (hnd : optIntTruthy d.new_duration_minutes = false)
    (hdur : cs.instant < ce.instant) :
    reconcilePatchTiming fb now d cs ce =
      PatchTiming.range ns (ns.addUs (ce.instant - cs.instant)) := by
  unfold reconcilePatchTiming
  rw [hts, hp]
  simp only [hne, hnd, Bool.false_eq_true, if_false, if_true]
  have hlt : ¬ ((ns.addUs (ce.instant - cs.instant)).instant ≤ ns.instant) := by
    simp only [DT.addUs, DT.instant] at hdur ⊢
    omega
  simp only [hlt, if_false]

/-- Witness for C1 at the spec's example: moving a one-hour event's start to
12:00 yields the range 12:00-13:00. -/
theorem C1_witness :
    reconcilePatchTiming fbW nowW
      ⟨"id1", none, some ("2025-06-05T12:00:00"), none, none, none, none⟩
      ⟨dayJun5 * usPerDay + 10 * usPerHour, 120⟩
      ⟨dayJun5 * usPerDay + 11 * usPerHour, 120⟩ =
      PatchTiming.range ⟨dayJun5 * usPerDay + 12 * usPerHour, 120⟩
        (DT.addUs ⟨dayJun5 * usPerDay + 12 * usPerHour, 120⟩ usPerHour) := by
  have h := C1_start_shift_preserves_duration fbW nowW
    ⟨"id1", none, some ("2025-06-05T12:00:00"), none, none, none, none⟩
    ⟨dayJun5 * usPerDay + 10 * usPerHour, 120⟩
    ⟨dayJun5 * usPerDay + 11 * usPerHour, 120⟩
    ⟨dayJun5 * usPerDay + 12 * usPerHour, 120⟩
    (by decide) (by decide) (by decide) (by decide) (by decide)
  rw [h]
  decide

/-- C2: when no new start is supplied but a new end or a new duration is,
every reconciled range keeps exactly the current event's start; an explicit
new end string takes priority over a supplied duration; and the new end is
validated strictly against the unchanged start. -/
theorem C2_end_change_anchors_on_current_start (fb : String → Option PDT)
    (now : DT) (d : UpdateEventInput) (cs ce : DT)
    (hns : optStrTruthy d.new_start_time_str = false)
    (hpres : (optStrTruthy d.new_end_time_str || optIntTruthy d.new_duration_minutes) = true) :
    (∀ a b, reconcilePatchTiming fb now d cs ce = PatchTiming.range a b → a = cs) ∧
    (∀ e, optStrTruthy d.new_end_time_str = true →
      parse_datetime_for_api fb now (d.new_end_time_str.getD ("")) none true =
        Resolved.ok e →
      (cs.instant < e.instant →
        reconcilePatchTiming fb now d cs ce = PatchTiming.range cs e) ∧
      (e.instant ≤ cs.instant →
        reconcilePatchTiming fb now d cs ce = PatchTiming.endNotAfterStart e cs)) := by
  constructor
  · intro a b h
    unfold reconcilePatchTiming at h
    cases hne : optStrTruthy d.new_end_time_str with
    | true =>
      simp only [hns, hne] at h
      cases hp : parse_datetime_for_api fb now (d.new_end_time_str.getD ("")) none true with
      | err s =>
        rw [hp] at h
        simp at h
      | ok e =>
        rw [hp] at h
        simp only [Bool.false_eq_true, if_false, if_true, Bool.true_or] at h
        split at h
        · exact PatchTiming.noConfusion h
        · exact (PatchTiming.range.injEq _ _ _ _ ▸ h).1.symm
    | false =>
      cases hnd : optIntTruthy d.new_duration_minutes with
      | false =>
        rw [hne, hnd] at hpres
        simp at hpres
      | true =>
        simp only [hns, hne, hnd, Bool.false_eq_true, if_false, if_true,
          Bool.false_or] at h
        split at h
        · rename_i o heq
          split at heq
          · injection heq with h2
            rw [← h2] at h
            exact PatchTiming.noConfusion h
          · exact Except.noConfusion heq
        · exact PatchTiming.noConfusion h
        · split at h
          · exact PatchTiming.noConfusion h
          · exact (PatchTiming.range.injEq _ _ _ _ ▸ h).1.symm
  · intro e hne hp
    constructor
    · intro hlt
      unfold reconcilePatchTiming
      rw [hp]
      simp only [hns, hne, Bool.false_eq_true, if_false, if_true, Bool.true_or]
      have : ¬ (e.instant ≤ cs.instant) := by omega
      simp only [this, if_false]
    · intro hle
      unfold reconcilePatchTiming
      rw [hp]
      simp only [hns, hne, Bool.false_eq_true, if_false, if_true, Bool.true_or]
      simp only [hle, if_true]

/-- Witness for C2: with the start absent, an explicit new end of 12:00 and
a competing duration of 30 minutes both supplied, the range anchors on the
current 10:00 start and the explicit end wins. -/
theorem C2_witness :
    reconcilePatchTiming fbW nowW
      ⟨"id2", none, none, some ("2025-06-05T12:00:00"), some 30, none, none⟩
      ⟨dayJun5 * usPerDay + 10 * usPerHour, 120⟩
      ⟨dayJun5 * usPerDay + 11 * usPerHour, 120⟩ =
      PatchTiming.range ⟨dayJun5 * usPerDay + 10 * usPerHour, 120⟩
        ⟨dayJun5 * usPerDay + 12 * usPerHour, 120⟩ :=
  ((C2_end_change_anchors_on_current_start fbW nowW
      ⟨"id2", none, none, some ("2025-06-05T12:00:00"), some 30, none, none⟩
      ⟨dayJun5 * usPerDay + 10 * usPerHour, 120⟩
      ⟨dayJun5 * usPerDay + 11 * usPerHour, 120⟩
      (by decide) (by decide)).2
    ⟨dayJun5 * usPerDay + 12 * usPerHour, 120⟩
    (by decide) (by decide)).1 (by decide)

/-- C6: whenever the computed end is not strictly after the resolved start
(equal instants included), creation and update reject the range with the
ordering error carrying both resolved instants, and a violating range is
never silently swapped into a valid one: every successful outcome satisfies
start < end strictly. -/
theorem C6_end_not_after_start_rejected (fb : String → Option PDT) (now : DT)
    (dC : CalendarEventInput) (dU : UpdateEventInput) (cs ce : DT) :
    (∀ s e, optStrTruthy dC.end_time_str = true →
      parse_datetime_for_api fb now dC.start_time_str none true = Resolved.ok s →
      parse_datetime_for_api fb now (dC.end_time_str.getD ("")) none true =
        Resolved.ok e →
      e.instant ≤ s.instant →
      createReconcile fb now dC = CreateOutcome.endBeforeStart e s) ∧
    (∀ a b, createReconcile fb now dC = CreateOutcome.created a b →
      a.instant < b.instant) ∧
    (∀ s e, optStrTruthy dU.new_start_time_str = true →
      parse_datetime_for_api fb now (dU.new_start_time_str.getD ("")) none true =
        Resolved.ok s →
      optStrTruthy dU.new_end_time_str = true →
      parse_datetime_for_api fb now (dU.new_end_time_str.getD ("")) none true =
        Resolved.ok e →
      e.instant ≤ s.instant →
      reconcilePatchTiming fb now dU cs ce = PatchTiming.endNotAfterStart e s) ∧
    (∀ e, optStrTruthy dU.new_start_time_str = false →
      optStrTruthy dU.new_end_time_str = true →
      parse_datetime_for_api fb now (dU.new_end_time_str.getD ("")) none true =
        Resolved.ok e →
      e.instant ≤ cs.instant →
      reconcilePatchTiming fb now dU cs ce = PatchTiming.endNotAfterStart e cs) ∧
    (∀ a b, reconcilePatchTiming fb now dU cs ce = PatchTiming.range a b →
      a.instant < b.instant) := by
  refine ⟨?_, ?_, ?_, ?_, ?_⟩
  · intro s e hend hps hpe hle
    unfold createReconcile
    rw [hps]
    simp only [hend, if_true]
    rw [hpe]
    simp only [hle, if_true]
  · intro a b h
    unfold createReconcile at h
    cases hps : parse_datetime_for_api fb now dC.start_time_str none true with
    | err s => rw [hps] at h; exact CreateOutcome.noConfusion h
    | ok s =>
      rw [hps] at h
      cases hend : optStrTruthy dC.end_time_str with
      | true =>
        simp only [hend, if_true] at h
        cases hpe : parse_datetime_for_api fb now (dC.end_time_str.getD ("")) none true with
        | err s2 => rw [hpe] at h; simp at h
        | ok e =>
          rw [hpe] at h
          simp only [] at h
          split at h
          · exact CreateOutcome.noConfusion h
          · rename_i hnle
            obtain ⟨h1, h2⟩ := CreateOutcome.created.injEq _ _ _ _ ▸ h
            subst h1
            subst h2
            omega
      | false =>
        cases hdur : optIntTruthy dC.duration_minutes with
        | true =>
          simp only [hend, hdur, Bool.false_eq_true, if_false, if_true] at h
          split at h
          · rename_i o heq
            split at heq
            · injection heq with h2
              rw [← h2] at h
              exact CreateOutcome.noConfusion h
            · exact Except.noConfusion heq
          · split at h
            · exact CreateOutcome.noConfusion h
            · rename_i hnle
              obtain ⟨h1, h2⟩ := CreateOutcome.created.injEq _ _ _ _ ▸ h
              subst h1
              subst h2
              omega
        | false =>
          simp only [hend, hdur, Bool.false_eq_true, if_false] at h
          split at h
          · exact CreateOutcome.noConfusion h
          · rename_i hnle
            obtain ⟨h1, h2⟩ := CreateOutcome.created.injEq _ _ _ _ ▸ h
            subst h1
            subst h2
            omega
  · intro s e hts hps hte hpe hle
    unfold reconcilePatchTiming
    rw [hts, hps]
    simp only [hte, if_true]
    rw [hpe]
    simp only [hle, if_true]
  · intro e hns hte hpe hle
    unfold reconcilePatchTiming
    rw [hns, hpe]
    simp only [hte, Bool.false_eq_true, if_false, if_true, Bool.true_or]
    simp only [hle, if_true]
  · intro a b h
    unfold reconcilePatchTiming at h
    cases hts : optStrTruthy dU.new_start_time_str with
    | true =>
      simp only [hts, if_true] at h
      cases hps : parse_datetime_for_api fb now (dU.new_start_time_str.getD ("")) none true with
      | err s2 => rw [hps] at h; exact PatchTiming.noConfusion h
      | ok s =>
        rw [hps] at h
        cases hte : optStrTruthy dU.new_end_time_str with
        | true =>
          simp only [hte, if_true] at h
          cases hpe : parse_datetime_for_api fb now (dU.new_end_time_str.getD ("")) none true with
          | err s2 => rw [hpe] at h; simp at h
          | ok e =>
            rw [hpe] at h
            simp only [] at h
            split at h
            · exact PatchTiming.noConfusion h
            · rename_i hnle
              obtain ⟨h1, h2⟩ := PatchTiming.range.injEq _ _ _ _ ▸ h
              subst h1
              subst h2
              omega
        | false =>
          cases hnd : optIntTruthy dU.new_duration_minutes with
          | true =>
            simp only [hte, hnd, Bool.false_eq_true, if_false, if_true] at h
            split at h
            · rename_i o heq
              split at heq
              · injection heq with h2
                rw [← h2] at h
                exact PatchTiming.noConfusion h
              · exact Except.noConfusion heq
            · split at h
              · exact PatchTiming.noConfusion h
              · rename_i hnle
                obtain ⟨h1, h2⟩ := PatchTiming.range.injEq _ _ _ _ ▸ h
                subst h1
                subst h2
                omega
          | false =>
            simp only [hte, hnd, Bool.false_eq_true, if_false] at h
            split at h
            · exact PatchTiming.noConfusion h
            · rename_i hnle
              obtain ⟨h1, h2⟩ := PatchTiming.range.injEq _ _ _ _ ▸ h
              subst h1
              subst h2
              omega
    | false =>
      cases hte : optStrTruthy dU.new_end_time_str with
      | true =>
        simp only [hts, hte, Bool.false_eq_true, if_false, if_true, Bool.true_or] at h
        cases hpe : parse_datetime_for_api fb now (dU.new_end_time_str.getD ("")) none true with
        | err s2 => rw [hpe] at h; simp at h
        | ok e =>
          rw [hpe] at h
          simp only [] at h
          split at h
          · exact PatchTiming.noConfusion h
          · rename_i hnle
            obtain ⟨h1, h2⟩ := PatchTiming.range.injEq _ _ _ _ ▸ h
            subst h1
            subst h2
            omega
      | false =>
        cases hnd : optIntTruthy dU.new_duration_minutes with
        | true =>
          simp only [hts, hte, hnd, Bool.false_eq_true, if_false, if_true,
            Bool.false_or] at h
          split at h
          · rename_i o heq
            split at heq
            · injection heq with h2
              rw [← h2] at h
              exact PatchTiming.noConfusion h
            · exact Except.noConfusion heq
          · exact PatchTiming.noConfusion h
          · split at h
            · exact PatchTiming.noConfusion h
            · rename_i hnle
              obtain ⟨h1, h2⟩ := PatchTiming.range.injEq _ _ _ _ ▸ h
              subst h1
              subst h2
              omega
        | false =>
          simp only [hts, hte, hnd, Bool.false_eq_true, if_false, Bool.or_self] at h
          exact PatchTiming.noConfusion h

/-- Witness for C6: a creation whose resolved end equals its resolved start
(both 10:00) is rejected with the ordering error carrying both instants. -/
theorem C6_witness :
    createReconcile fbW nowW
      ⟨"Call", "2025-06-05T10:00:00", none, some ("2025-06-05T10:00:00"), none, none⟩ =
      CreateOutcome.endBeforeStart ⟨dayJun5 * usPerDay + 10 * usPerHour, 120⟩
        ⟨dayJun5 * usPerDay + 10 * usPerHour, 120⟩ :=
  (C6_end_not_after_start_rejected fbW nowW
      ⟨"Call", "2025-06-05T10:00:00", none, some ("2025-06-05T10:00:00"), none, none⟩
      ⟨"idx", none, none, none, none, none, none⟩
      nowW nowW).1
    ⟨dayJun5 * usPerDay + 10 * usPerHour, 120⟩
    ⟨dayJun5 * usPerDay + 10 * usPerHour, 120⟩
    (by decide) (by decide) (by decide) (by decide)

/-- Counterexample to C3: a creation supplying `duration_minutes = 0` (with
no end expression) does not return the non-positive-duration error — the zero
is falsy, the check `duration_minutes <= 0` is never reached, and the event
is created with the 60-minute default duration instead. -/
theorem C3_counterexample :
    createReconcile fbW nowW
      ⟨"Meeting", "2025-06-05T14:00:00", some 0, none, none, none⟩ =
      CreateOutcome.created ⟨dayJun5 * usPerDay + 14 * usPerHour, 120⟩
        (DT.addMinutes ⟨dayJun5 * usPerDay + 14 * usPerHour, 120⟩ 60) ∧
    CreateOutcome.created ⟨dayJun5 * usPerDay + 14 * usPerHour, 120⟩
        (DT.addMinutes ⟨dayJun5 * usPerDay + 14 * usPerHour, 120⟩ 60) ≠
      CreateOutcome.nonPositiveDuration := by
  exact ⟨by decide, by decide⟩

/-- C3 (amended): a supplied negative duration is rejected with the
non-positive-duration error in creation and in both update branches, and a
supplied duration of exactly `0` is treated as if no duration had been
supplied at all (the default-duration rule applies on creation, and update
ignores it). -/
theorem C3_amended_negative_rejected_zero_treated_as_absent
    (fb : String → Option PDT) (now : DT)
    (dC : CalendarEventInput) (dU : UpdateEventInput) (cs ce s : DT)
    (su st : String) (et de lo : Option String)
    (uid : String) (nsu nss nes nde nlo : Option String) (n : Int) :
    (dC.duration_minutes = some n → n < 0 →
      optStrTruthy dC.end_time_str = false →
      parse_datetime_for_api fb now dC.start_time_str none true = Resolved.ok s →
      createReconcile fb now dC = CreateOutcome.nonPositiveDuration) ∧
    (createReconcile fb now ⟨su, st, some 0, et, de, lo⟩ =
      createReconcile fb now ⟨su, st, none, et, de, lo⟩) ∧
    (dU.new_duration_minutes = some n → n < 0 →
      optStrTruthy dU.new_start_time_str = true →
      parse_datetime_for_api fb now (dU.new_start_time_str.getD ("")) none true =
        Resolved.ok s →
      optStrTruthy dU.new_end_time_str = false →
      reconcilePatchTiming fb now dU cs ce = PatchTiming.nonPositiveDuration) ∧
    (dU.new_duration_minutes = some n → n < 0 →
      optStrTruthy dU.new_start_time_str = false →
      optStrTruthy dU.new_end_time_str = false →
      reconcilePatchTiming fb now dU cs ce = PatchTiming.nonPositiveDuration) ∧
    (reconcilePatchTiming fb now ⟨uid, nsu, nss, nes, some 0, nde, nlo⟩ cs ce =
      reconcilePatchTiming fb now ⟨uid, nsu, nss, nes, none, nde, nlo⟩ cs ce) := by
  refine ⟨?_, ?_, ?_, ?_, ?_⟩
  · intro hdm hneg hend hps
    unfold createReconcile
    rw [hps]
    have htr : optIntTruthy dC.duration_minutes = true := by
      rw [hdm]
      simp [optIntTruthy]
      omega
    have hle : dC.duration_minutes.getD 0 ≤ 0 := by
      rw [hdm]
      simp
      omega
    simp only [hend, htr, hle, Bool.false_eq_true, if_false, if_true]
  · unfold createReconcile
    simp [optIntTruthy]
  · intro hdm hneg hts hps hte
    unfold reconcilePatchTiming
    rw [hts, hps]
    have htr : optIntTruthy dU.new_duration_minutes = true := by
      rw [hdm]
      simp [optIntTruthy]
      omega
    have hle : dU.new_duration_minutes.getD 0 ≤ 0 := by
      rw [hdm]
      simp
      omega
    simp only [hte, htr, hle, Bool.false_eq_true, if_false, if_true]
  · intro hdm hneg hts hte
    unfold reconcilePatchTiming
    have htr : optIntTruthy dU.new_duration_minutes = true := by
      rw [hdm]
      simp [optIntTruthy]
      omega
    have hle : dU.new_duration_minutes.getD 0 ≤ 0 := by
      rw [hdm]
      simp
      omega
    simp only [hts, hte, htr, hle, Bool.false_eq_true, if_false, if_true,
      Bool.false_or]
  · unfold reconcilePatchTiming
    simp [optIntTruthy]

/-- Witness for the amended C3 at the spec's example input (duration −5). -/
theorem C3_witness :
    createReconcile fbW nowW
      ⟨"Meeting", "2025-06-05T14:00:00", some (-5), none, none, none⟩ =
      CreateOutcome.nonPositiveDuration :=
  (C3_amended_negative_rejected_zero_treated_as_absent fbW nowW
      ⟨"Meeting", "2025-06-05T14:00:00", some (-5), none, none, none⟩
      ⟨"idx", none, none, none, none, none, none⟩
      nowW nowW ⟨dayJun5 * usPerDay + 14 * usPerHour, 120⟩
      "x" "x" none none none "idx" none none none none none (-5)).1
    rfl (by decide) rfl (by decide)

/-- C10: in `list_event`, an upper bound that is supplied but fails to
resolve is silently discarded — the query proceeds with an unbounded upper
time bound — whereas a supplied lower bound that fails to resolve aborts with
an error result and no query is built. -/
theorem C10_list_bound_failure_asymmetry (fb : String → Option PDT)
    (now : DT) (d : ListEventsInput) (m : DT) :
    (optStrTruthy d.time_max_str = true →
      parse_datetime_for_api fb now (d.time_max_str.getD ("")) (some timeMaxUs) true =
        Resolved.err (d.time_max_str.getD ("")) →
      ((optStrTruthy d.time_min_str = true →
        parse_datetime_for_api fb now (d.time_min_str.getD ("")) (some 0) true =
          Resolved.ok m →
        listReconcile fb now d =
          ListOutcome.query ⟨m, none, d.search_query, min d.max_results 250⟩) ∧
       (optStrTruthy d.time_min_str = false →
        listReconcile fb now d =
          ListOutcome.query ⟨now, none, d.search_query, min d.max_results 250⟩))) ∧
    (optStrTruthy d.time_min_str = true →
      parse_datetime_for_api fb now (d.time_min_str.getD ("")) (some 0) true =
        Resolved.err (d.time_min_str.getD ("")) →
      listReconcile fb now d = ListOutcome.badTimeMin) := by
  constructor
  · intro htmax hfailmax
    constructor
    · intro htmin hokmin
      unfold listReconcile
      rw [hfailmax, hokmin]
      simp only [htmax, htmin, if_true, resolvedToOpt]
    · intro htmin
      unfold listReconcile
      rw [hfailmax]
      simp only [htmax, htmin, Bool.false_eq_true, if_false, if_true, resolvedToOpt]
  · intro htmin hfailmin
    unfold listReconcile
    rw [hfailmin]
    simp only [htmin, if_true, resolvedToOpt]

/-- Witness for C10: an unparseable upper bound is dropped (query proceeds
unbounded above) while an unparseable lower bound aborts. -/
theorem C10_witness :
    listReconcile fbW nowW ⟨some ("2025-06-05T10:00:00"), some ("gibberish"), none, 10⟩ =
      ListOutcome.query ⟨⟨dayJun5 * usPerDay + 10 * usPerHour, 120⟩, none, none, 10⟩ ∧
    listReconcile fbW nowW ⟨some ("gibberish"), none, none, 10⟩ =
      ListOutcome.badTimeMin := by
  constructor
  · exact ((C10_list_bound_failure_asymmetry fbW nowW
      ⟨some ("2025-06-05T10:00:00"), some ("gibberish"), none, 10⟩
      ⟨dayJun5 * usPerDay + 10 * usPerHour, 120⟩).1
      (by decide) (by decide)).1 (by decide) (by decide)
  · exact (C10_list_bound_failure_asymmetry fbW nowW
      ⟨some ("gibberish"), none, none, 10⟩ nowW).2 (by decide) (by decide)

/-- Helper: a fully guarded `try/except` block always produces a returned
message, never a propagating exception. -/
theorem pyCatch_isOk (a b : String) (x : Except PyExn String) :
    exceptIsOk (pyCatch a b x) = true := by
  cases x with
  | ok s => rfl
  | error e => cases e <;> rfl

/-- C9: for every input and every provider behavior — including provider
calls that raise — all four handlers return a result value; no exception
crosses the handler boundary. -/
theorem C9_no_exception_crosses_handler_boundary :
    ∀ (p : Option Provider) (fb : String → Option PDT) (now : DT)
      (ci : CalendarEventInput) (li : ListEventsInput) (ui : UpdateEventInput)
      (xi : CancelEventInput),
      exceptIsOk (create_event p fb now ci) = true ∧
      exceptIsOk (list_event p fb now li) = true ∧
      exceptIsOk (change_event p fb now ui) = true ∧
      exceptIsOk (cancel_event p xi) = true := by
  intro p fb now ci li ui xi
  refine ⟨?_, ?_, ?_, ?_⟩
  · cases p with
    | none => rfl
    | some svc =>
      unfold create_event
      cases hc : createReconcile fb now ci <;>
        simp only [hc] <;>
        first
        | rfl
        | exact pyCatch_isOk _ _ _
  · cases p with
    | none => rfl
    | some svc =>
      unfold list_event
      cases hc : listReconcile fb now li <;>
        simp only [hc] <;>
        first
        | rfl
        | exact pyCatch_isOk _ _ _
  · cases p with
    | none => rfl
    | some svc => exact pyCatch_isOk _ _ _
  · cases p with
    | none => rfl
    | some svc =>
      unfold cancel_event
      cases hd : svc.deleteEvent xi.event_id xi.send_notifications with
      | ok u => simp only [hd]; rfl
      | error e =>
        simp only [hd]
        cases e with
        | httpError status reason content =>
          by_cases h404 : status = 404 <;> simp only [h404, if_true, if_false] <;> rfl
        | other m => rfl
